import Mathlib

/-!
Shallow embedding of the OTX ETL connector (`etl_connector.py`).

Python values that may appear in a parsed JSON response are modelled by
`Value`; Python exceptions are modelled by `Except Unit`.  The HTTP
transport and the document store are external collaborators and are
modelled as oracles passed in as parameters; observable side effects
(request count, sleeps, store-insert calls) are recorded explicitly.
-/

namespace OTX

/-- A Python value as produced by parsing a JSON body: `None`, booleans,
integers, strings, lists, and string-keyed dicts. -/
inductive Value where
  | null : Value
  | bool (b : Bool) : Value
  | int (n : Int) : Value
  | str (s : String) : Value
  | list (xs : List Value) : Value
  | dict (fields : List (String × Value)) : Value

/-- Python truthiness of a `Value` (as tested by `if not raw_data`). -/
def Value.truthy : Value → Bool
  | .null => false
  | .bool b => b
  | .int n => n != 0
  | .str s => s ≠ ""
  | .list xs => !xs.isEmpty
  | .dict fs => !fs.isEmpty

/-- Python `d.get(key, default)` on the field list of a dict. -/
def dictGet (fs : List (String × Value)) (key : String) (dflt : Value) : Value :=
  (fs.lookup key).getD dflt

/-- Python `len(v)`: defined for sized containers, raises `TypeError`
(modelled as `.error ()`) otherwise. -/
def pyLen : Value → Except Unit Nat
  | .str s => .ok s.length
  | .list xs => .ok xs.length
  | .dict fs => .ok fs.length
  | _ => .error ()

/-- Whether `needle` occurs as a contiguous substring of `hay`. -/
def strContainsSub (hay needle : String) : Bool :=
  hay.data.tails.any (fun t => needle.data.isPrefixOf t)

/-- Python `key in v` for a string key: dict key membership, list element
membership, substring test on strings; raises `TypeError` on other values. -/
def pyContains (v : Value) (key : String) : Except Unit Bool :=
  match v with
  | .dict fs => .ok (fs.any (fun p => p.1 == key))
  | .list xs => .ok (xs.any (fun x => match x with | .str s => s == key | _ => false))
  | .str s => .ok (strContainsSub s key)
  | _ => .error ()

/-- Python `v[key]` for a string key: succeeds only on a dict containing
the key (`KeyError` / `TypeError` otherwise). -/
def pySubscript (v : Value) (key : String) : Except Unit Value :=
  match v with
  | .dict fs =>
    match fs.lookup key with
    | some w => .ok w
    | none => .error ()
  | _ => .error ()

/-- Python iteration `for x in v`: lists yield elements, strings yield
one-character strings, dicts yield their keys; other values raise. -/
def pyIter : Value → Except Unit (List Value)
  | .list xs => .ok xs
  | .str s => .ok (s.data.map (fun c => .str (String.mk [c])))
  | .dict fs => .ok (fs.map (fun p => Value.str p.1))
  | _ => .error ()

/-- The transformed record built by `transform_data` for one pulse. -/
structure NormalizedDoc where
  pulse_id : Value
  name : Value
  description : Value
  author_name : Value
  created : Value
  modified : Value
  tags : Value
  references : Value
  public : Value
  indicators_count : Nat
  indicators : Value
  malware_families : Value
  attack_ids : Value
  ingestion_timestamp : Value
  source : Value
  raw_data : Value

/-- The body of the per-pulse loop over the results entry: builds one
transformed record from one pulse.  `pulse.get` raises `AttributeError`
on a non-dict, and the length of the defaulted indicators value raises `TypeError`
when the indicators value has no length; both are modelled as `.error ()`.
`now` stands for `datetime.now(timezone.utc)`. -/
def mapPulse (now : Value) (pulse : Value) : Except Unit NormalizedDoc :=
  match pulse with
  | .dict fs => do
    let inds := dictGet fs "indicators" (.list [])
    let n ← pyLen inds
    pure
      { pulse_id := dictGet fs "id" .null
        name := dictGet fs "name" (.str "")
        description := dictGet fs "description" (.str "")
        author_name := dictGet fs "author_name" (.str "")
        created := dictGet fs "created" .null
        modified := dictGet fs "modified" .null
        tags := dictGet fs "tags" (.list [])
        references := dictGet fs "references" (.list [])
        public := dictGet fs "public" (.bool false)
        indicators_count := n
        indicators := inds
        malware_families := dictGet fs "malware_families" (.list [])
        attack_ids := dictGet fs "attack_ids" (.list [])
        ingestion_timestamp := now
        source := .str "otx_alienvault"
        raw_data := pulse }
  | _ => .error ()

/-- Model of `OTXETLConnector.transform_data`.  Mirrors the Python control flow:
the short-circuiting falsy-or-missing-key test on the input,
then iteration over the subscripted results entry with a per-record
`try/except Exception: continue` (the `filterMap`). -/
def transform_data (now : Value) (raw_data : Value) : Except Unit (List NormalizedDoc) :=
  if !raw_data.truthy then .ok []
  else do
    let mem ← pyContains raw_data "results"
    if !mem then return []
    let results ← pySubscript raw_data "results"
    let pulses ← pyIter results
    return pulses.filterMap (fun p => (mapPulse now p).toOption)

/-- What `response.json()` does on a body: raise `JSONDecodeError`, or
produce a parsed value. -/
inductive BodyParse where
  | invalid : BodyParse
  | parsed (v : Value) : BodyParse

/-- Outcome of one `requests.get` call: either the call itself raises a
`RequestException`, or it yields a response with a status code and a body. -/
inductive HttpOutcome where
  | raises : HttpOutcome
  | response (status : Nat) (body : BodyParse) : HttpOutcome

/-- Python `response.raise_for_status()` raises `HTTPError` exactly for 4xx/5xx. -/
def httpErrorStatus (s : Nat) : Bool :=
  decide (400 ≤ s ∧ s < 600)

/-- The tail of `extract_data` after the chosen response is in hand:
`raise_for_status` (its `HTTPError` is a `RequestException`, hence caught
and turned into `None`), then `response.json()` (`JSONDecodeError` caught,
`None`), then the success log line
taking the length of the defaulted results entry — whose `AttributeError`/`TypeError` on an
unexpectedly-structured body is caught by neither `except` clause and
propagates (`.error ()`). -/
def finishResponse (s : Nat) (b : BodyParse) : Except Unit (Option Value) :=
  if httpErrorStatus s then .ok none
  else
    match b with
    | .invalid => .ok none
    | .parsed v =>
      match v with
      | .dict fs =>
        match pyLen (dictGet fs "results" (.list [])) with
        | .ok _ => .ok (some v)
        | .error _ => .error ()
      | _ => .error ()

/-- Processing of one transport outcome: a raised `RequestException` is
caught (`None`); otherwise the response is finished as above. -/
def processOutcome (o : HttpOutcome) : Except Unit (Option Value) :=
  match o with
  | .raises => .ok none
  | .response s b => finishResponse s b

/-- The response `extract_data` ends up using: the second call's outcome
when the first response had status 429, the first outcome otherwise. -/
def usedOutcome (env : Nat → HttpOutcome) : HttpOutcome :=
  match env 0 with
  | .raises => .raises
  | .response s b => if s = 429 then env 1 else .response s b

/-- The parsed bodies on which the success log line
of the extractor evaluates without raising: dicts whose
`results` entry (defaulting to `[]`) has a length. -/
def wellShaped (v : Value) : Bool :=
  match v with
  | .dict fs => (pyLen (dictGet fs "results" (.list []))).toOption.isSome
  | _ => false

/-- Observable result of `extract_data`: how many `requests.get` calls
were issued, which `time.sleep` durations ran, and the returned value
(`.ok none` is the `None` failure sentinel; `.error ()` an uncaught
exception escaping to the caller). -/
structure ExtractResult where
  calls : Nat
  sleeps : List Nat
  result : Except Unit (Option Value)

/-- Model of `OTXETLConnector.extract_data`.  The transport is an oracle `env`
giving the outcome of the k-th `requests.get` call (both calls use the
identical URL, headers and params).  On a 429 first response the code
sleeps 60 seconds and retries exactly once. -/
def extract_data (env : Nat → HttpOutcome) : ExtractResult :=
  match env 0 with
  | .raises => ⟨1, [], .ok none⟩
  | .response s b =>
    if s = 429 then ⟨2, [60], processOutcome (env 1)⟩
    else ⟨1, [], finishResponse s b⟩

/-- Model of `OTXETLConnector.load_data`.  The store oracle models
`collection.insert_many`: it either raises (any `Exception`, caught and
turned into `0`) or returns the list `result.inserted_ids`.  The first
component counts `insert_many` calls, the second is the return value. -/
def load_data (store : List NormalizedDoc → Except Unit (List Value))
    (transformed_data : List NormalizedDoc) : Nat × Nat :=
  if transformed_data.isEmpty then (0, 0)
  else
    match store transformed_data with
    | .ok res => (1, res.length)
    | .error _ => (1, 0)

/-- Observable result of one `run_etl_pipeline` run: phase call counts,
the count the loader reported, and the returned boolean (or an uncaught
exception escaping the orchestrator). -/
structure RunResult where
  transformCalls : Nat
  loadCalls : Nat
  insertCalls : Nat
  loadedCount : Nat
  result : Except Unit Bool

/-- Model of `OTXETLConnector.run_etl_pipeline`: extract, abort (`False`) on a
falsy raw result; transform, abort (`False`) on a falsy (empty) document
list; load, and return `loaded_count > 0`. -/
def run_etl_pipeline (env : Nat → HttpOutcome) (now : Value)
    (store : List NormalizedDoc → Except Unit (List Value)) : RunResult :=
  match (extract_data env).result with
  | .error e => ⟨0, 0, 0, 0, .error e⟩
  | .ok none => ⟨0, 0, 0, 0, .ok false⟩
  | .ok (some raw) =>
    if !raw.truthy then ⟨0, 0, 0, 0, .ok false⟩
    else
      match transform_data now raw with
      | .error e => ⟨1, 0, 0, 0, .error e⟩
      | .ok docs =>
        if docs.isEmpty then ⟨1, 0, 0, 0, .ok false⟩
        else
          let r := load_data store docs
          ⟨1, 1, r.1, r.2, .ok (decide (0 < r.2))⟩

/-! ### Helper lemmas -/

theorem lookup_any_eq_true {fs : List (String × Value)} {k : String} {w : Value}
    (h : fs.lookup k = some w) : fs.any (fun p => p.1 == k) = true := by
  induction fs with
  | nil => simp [List.lookup] at h
  | cons a t ih =>
    rw [List.any_cons]
    cases hk : k == a.1 with
    | true =>
      have : a.1 = k := (beq_iff_eq.mp hk).symm
      simp [this]
    | false =>
      have h' : t.lookup k = some w := by
        simpa [List.lookup, hk] using h
      simp [ih h']

theorem lookup_ne_nil {fs : List (String × Value)} {k : String} {w : Value}
    (h : fs.lookup k = some w) : fs.isEmpty = false := by
  cases fs with
  | nil => simp [List.lookup] at h
  | cons a t => rfl

/-- Evaluation of `transform_data` on a dict whose `results` entry is a
list: the loop is a filter-map of the per-record mapping. -/
theorem transform_data_dict_results {now : Value} {fs : List (String × Value)}
    {ps : List Value} (h : fs.lookup "results" = some (.list ps)) :
    transform_data now (.dict fs) =
      .ok (ps.filterMap (fun p => (mapPulse now p).toOption)) := by
  have hne : fs.isEmpty = false := lookup_ne_nil h
  have hmem : fs.any (fun p => p.1 == "results") = true := lookup_any_eq_true h
  simp only [transform_data, Value.truthy, pyContains, pySubscript, pyIter, hne, hmem, h]
  rfl

theorem length_filterMap_eq_countP {α β : Type} (f : α → Option β) (l : List α) :
    (l.filterMap f).length = l.countP (fun a => (f a).isSome) := by
  induction l with
  | nil => rfl
  | cons a t ih =>
    rw [List.filterMap_cons, List.countP_cons]
    cases hfa : f a <;> simp [hfa, ih]

/-! ### Claims -/

/-- C2: every raw record the transformer successfully maps yields a
document whose `indicators_count` equals the length of its `indicators`
and whose `raw_data` is exactly the source pulse. -/
theorem mapPulse_invariants (now pulse : Value) (d : NormalizedDoc)
    (h : mapPulse now pulse = .ok d) :
    pyLen d.indicators = .ok d.indicators_count ∧ d.raw_data = pulse := by
  cases pulse with
  | dict fs =>
    cases hl : pyLen (dictGet fs "indicators" (.list [])) with
    | ok n =>
      simp [mapPulse, hl, Except.bind] at h
      subst h
      exact ⟨hl, rfl⟩
    | error e =>
      simp [mapPulse, hl, Except.bind] at h
  | null => simp [mapPulse] at h
  | bool b => simp [mapPulse] at h
  | int n => simp [mapPulse] at h
  | str s => simp [mapPulse] at h
  | list xs => simp [mapPulse] at h

theorem mapPulse_invariants_witness :
    pyLen (Value.list [.int 1, .int 2]) = .ok 2 ∧
      Value.dict [("id", .str "p1"), ("indicators", .list [.int 1, .int 2])] =
        Value.dict [("id", .str "p1"), ("indicators", .list [.int 1, .int 2])] := by
  have := mapPulse_invariants .null
    (.dict [("id", .str "p1"), ("indicators", .list [.int 1, .int 2])])
    { pulse_id := .str "p1", name := .str "", description := .str "",
      author_name := .str "", created := .null, modified := .null,
      tags := .list [], references := .list [], public := .bool false,
      indicators_count := 2, indicators := .list [.int 1, .int 2],
      malware_families := .list [], attack_ids := .list [],
      ingestion_timestamp := .null, source := .str "otx_alienvault",
      raw_data := .dict [("id", .str "p1"), ("indicators", .list [.int 1, .int 2])] }
    rfl
  exact this

/-- C7: on a dict whose `results` entry is a list, `transform_data` is an
order-preserving filter-map over the raw records: the surviving documents
appear in input order, with skipped records simply absent. -/
theorem transform_data_order_preserving (now : Value) (fs : List (String × Value))
    (ps : List Value) (h : fs.lookup "results" = some (.list ps)) :
    transform_data now (.dict fs) =
      .ok (ps.filterMap (fun p => (mapPulse now p).toOption)) :=
  transform_data_dict_results h

theorem transform_data_order_preserving_witness :
    transform_data .null (.dict [("results", .list [.dict [("id", .str "p1")], .int 3])]) =
      .ok (([Value.dict [("id", .str "p1")], Value.int 3]).filterMap
        (fun p => (mapPulse .null p).toOption)) :=
  transform_data_order_preserving .null _ _ rfl

/-- C3: on a dict whose `results` entry is a list, the number of
transformed documents is the number of records whose mapping succeeds,
hence at most the number of raw records, with equality iff no record
raises during mapping; a raising record is skipped while the rest of the
batch is still transformed. -/
theorem transform_data_length_spec (now : Value) (fs : List (String × Value))
    (ps : List Value) (h : fs.lookup "results" = some (.list ps)) :
    ∃ docs, transform_data now (.dict fs) = .ok docs ∧
      docs.length = ps.countP (fun p => ((mapPulse now p).toOption).isSome) ∧
      docs.length ≤ ps.length ∧
      (docs.length = ps.length ↔ ∀ p ∈ ps, ((mapPulse now p).toOption).isSome = true) := by
  refine ⟨_, transform_data_dict_results h, ?_, ?_, ?_⟩
  · exact length_filterMap_eq_countP _ ps
  · exact List.length_filterMap_le _ ps
  · rw [length_filterMap_eq_countP]
    exact List.countP_eq_length

theorem transform_data_length_spec_witness :
    ∃ docs, transform_data .null (.dict [("results", .list [.dict [], .int 3])]) = .ok docs ∧
      docs.length = ([Value.dict [], Value.int 3]).countP
        (fun p => ((mapPulse .null p).toOption).isSome) ∧
      docs.length ≤ 2 ∧
      (docs.length = 2 ↔
        ∀ p ∈ [Value.dict [], Value.int 3], ((mapPulse .null p).toOption).isSome = true) :=
  transform_data_length_spec .null _ _ rfl

/-- C6 counterexample: the truthy non-container input `5` lacks the
`results` field, yet `transform_data` raises (`TypeError` from the
membership test) instead of returning an empty list. -/
theorem transform_data_raises_on_int : transform_data .null (.int 5) = .error () := rfl

/-- C6 (amended): for every falsy input, and for every input on which the
membership test for the results key evaluates without error to false
(in particular every dict lacking the key), `transform_data` returns an
empty list without raising. -/
theorem transform_data_nothing_to_transform (now raw_data : Value)
    (h : raw_data.truthy = false ∨ pyContains raw_data "results" = .ok false) :
    transform_data now raw_data = .ok [] := by
  rcases h with h | h
  · simp [transform_data, h]
  · cases ht : raw_data.truthy with
    | false => simp [transform_data, ht]
    | true =>
      simp only [transform_data, ht, h]
      rfl

theorem transform_data_nothing_to_transform_witness :
    transform_data .null (.dict [("x", .null)]) = .ok [] :=
  transform_data_nothing_to_transform .null _ (Or.inr rfl)


/-- Evaluation lemma: `extract_data` returns exactly the processing of the outcome it ends
up using (the retry outcome after a first 429, the first outcome
otherwise). -/
theorem extract_data_result_eq (env : Nat → HttpOutcome) :
    (extract_data env).result = processOutcome (usedOutcome env) := by
  unfold extract_data usedOutcome
  cases h : env 0 with
  | raises => rfl
  | response s b =>
    by_cases hs : s = 429 <;> simp [hs, processOutcome]

/-- C4 counterexample: a response with success status 200 whose body is
the valid JSON array `[]` — an unexpectedly-structured body — makes
`extract_data` raise an uncaught `AttributeError` (from
the defaulted get of the results entry on a list) instead of returning `None`. -/
theorem extract_data_propagates_on_list_body :
    (extract_data (fun _ => .response 200 (.parsed (.list [])))).result = .error () := rfl

/-- C4 (amended): `extract_data` converts transport-level failures,
HTTP error statuses and invalid-JSON bodies into a `None` return; but
when the response it ends up using has a success status and a body
parsing to a value that is not a dict with a sized `results` entry, an
uncaught exception propagates to the caller — and that is the only case
in which one does. -/
theorem extract_data_exception_spec (env : Nat → HttpOutcome) :
    (usedOutcome env = .raises → (extract_data env).result = .ok none) ∧
    (∀ s b, usedOutcome env = .response s b → httpErrorStatus s = true →
      (extract_data env).result = .ok none) ∧
    (∀ s, usedOutcome env = .response s .invalid → httpErrorStatus s = false →
      (extract_data env).result = .ok none) ∧
    (∀ s v, usedOutcome env = .response s (.parsed v) → httpErrorStatus s = false →
      wellShaped v = true → (extract_data env).result = .ok (some v)) ∧
    (∀ s v, usedOutcome env = .response s (.parsed v) → httpErrorStatus s = false →
      ((extract_data env).result = .error () ↔ wellShaped v = false)) := by
  rw [extract_data_result_eq]
  refine ⟨?_, ?_, ?_, ?_, ?_⟩
  · intro h; rw [h]; rfl
  · intro s b h hs; rw [h]; simp [processOutcome, finishResponse, hs]
  · intro s h hs; rw [h]; simp [processOutcome, finishResponse, hs]
  · intro s v h hs hw
    rw [h]
    cases v with
    | dict fs =>
      cases hl : pyLen (dictGet fs "results" (.list [])) with
      | ok n => simp [processOutcome, finishResponse, hs, hl]
      | error e => simp [wellShaped, hl, Except.toOption] at hw
    | null => simp [wellShaped] at hw
    | bool b => simp [wellShaped] at hw
    | int n => simp [wellShaped] at hw
    | str t => simp [wellShaped] at hw
    | list xs => simp [wellShaped] at hw
  · intro s v h hs
    rw [h]
    cases v with
    | dict fs =>
      cases hl : pyLen (dictGet fs "results" (.list [])) with
      | ok n => simp [processOutcome, finishResponse, hs, hl, wellShaped, Except.toOption]
      | error e => simp [processOutcome, finishResponse, hs, hl, wellShaped, Except.toOption]
    | null => simp [processOutcome, finishResponse, hs, wellShaped]
    | bool b => simp [processOutcome, finishResponse, hs, wellShaped]
    | int n => simp [processOutcome, finishResponse, hs, wellShaped]
    | str t => simp [processOutcome, finishResponse, hs, wellShaped]
    | list xs => simp [processOutcome, finishResponse, hs, wellShaped]

theorem extract_data_exception_spec_witness :
    (extract_data (fun _ => .response 200 (.parsed (.dict [("results", .list [])])))).result =
      .ok (some (.dict [("results", .list [])])) :=
  (extract_data_exception_spec
    (fun _ => .response 200 (.parsed (.dict [("results", .list [])])))).2.2.2.1
    200 (.dict [("results", .list [])]) rfl rfl rfl

/-- C5: when the first response has status 429, `extract_data` sleeps
exactly 60 seconds, issues exactly one further identical request, and
uses the retry outcome as its result; a second 429 gets no special
handling and falls through `raise_for_status` to the `None` sentinel. -/
theorem extract_data_retry_on_429 (env : Nat → HttpOutcome) (b : BodyParse)
    (h : env 0 = .response 429 b) :
    (extract_data env).calls = 2 ∧ (extract_data env).sleeps = [60] ∧
    (extract_data env).result = processOutcome (env 1) ∧
    (∀ b', env 1 = .response 429 b' → (extract_data env).result = .ok none) := by
  unfold extract_data
  rw [h]
  refine ⟨rfl, rfl, rfl, ?_⟩
  intro b' h1
  rw [h1]
  rfl

theorem extract_data_retry_on_429_witness :
    (extract_data (fun _ => .response 429 .invalid)).calls = 2 ∧
    (extract_data (fun _ => .response 429 .invalid)).sleeps = [60] ∧
    (extract_data (fun _ => .response 429 .invalid)).result = .ok none := by
  obtain ⟨h1, h2, _, h4⟩ :=
    extract_data_retry_on_429 (fun _ => .response 429 .invalid) .invalid rfl
  exact ⟨h1, h2, h4 .invalid rfl⟩

/-- C8: `load_data` on an empty document list returns `0` and issues no
`insert_many` call on the store. -/
theorem load_data_empty_noop (store : List NormalizedDoc → Except Unit (List Value)) :
    load_data store [] = (0, 0) := rfl

/-- C9: on a non-empty document list, a store-level error during the bulk
insert is caught and turned into a `0` return (never propagated), and on
success `load_data` returns the number of inserted identifiers the store
confirms. -/
theorem load_data_nonempty_spec (store : List NormalizedDoc → Except Unit (List Value))
    (docs : List NormalizedDoc) (h : docs ≠ []) :
    (∀ e, store docs = .error e → load_data store docs = (1, 0)) ∧
    (∀ ids, store docs = .ok ids → load_data store docs = (1, ids.length)) := by
  have hne : docs.isEmpty = false := by
    cases docs with
    | nil => exact absurd rfl h
    | cons d t => rfl
  constructor
  · intro e hs; simp [load_data, hne, hs]
  · intro ids hs; simp [load_data, hne, hs]

theorem load_data_nonempty_spec_witness :
    load_data (fun _ => .error ())
      [{ pulse_id := .null, name := .str "", description := .str "",
         author_name := .str "", created := .null, modified := .null,
         tags := .list [], references := .list [], public := .bool false,
         indicators_count := 0, indicators := .list [],
         malware_families := .list [], attack_ids := .list [],
         ingestion_timestamp := .null, source := .str "otx_alienvault",
         raw_data := .dict [] }] = (1, 0) :=
  (load_data_nonempty_spec (fun _ => .error ()) _ (List.cons_ne_nil _ _)).1 () rfl

/-- C1: `run_etl_pipeline` returns `True` iff the loaded count is
positive; extraction yielding the `None` sentinel aborts with `False`
before transform or load run, and a transform yielding an empty list
aborts with `False` before load runs. -/
theorem run_etl_pipeline_success_iff (env : Nat → HttpOutcome) (now : Value)
    (store : List NormalizedDoc → Except Unit (List Value)) :
    ((run_etl_pipeline env now store).result = .ok true ↔
      0 < (run_etl_pipeline env now store).loadedCount) ∧
    ((extract_data env).result = .ok none →
      run_etl_pipeline env now store = ⟨0, 0, 0, 0, .ok false⟩) ∧
    (∀ raw, (extract_data env).result = .ok (some raw) → raw.truthy = true →
      transform_data now raw = .ok [] →
      (run_etl_pipeline env now store).transformCalls = 1 ∧
      (run_etl_pipeline env now store).loadCalls = 0 ∧
      (run_etl_pipeline env now store).result = .ok false) := by
  refine ⟨?_, ?_, ?_⟩
  · unfold run_etl_pipeline
    cases hex : (extract_data env).result with
    | error e => simp
    | ok o =>
      cases o with
      | none => simp
      | some raw =>
        cases ht : raw.truthy with
        | false => simp [ht]
        | true =>
          cases htr : transform_data now raw with
          | error e => simp [ht, htr]
          | ok docs =>
            cases hd : docs.isEmpty with
            | true => simp [ht, htr, hd]
            | false => simp [ht, htr, hd, decide_eq_true_eq]
  · intro hex
    simp [run_etl_pipeline, hex]
  · intro raw hex ht htr
    simp [run_etl_pipeline, hex, ht, htr]

theorem run_etl_pipeline_success_iff_witness :
    run_etl_pipeline (fun _ => .raises) .null (fun _ => .ok []) = ⟨0, 0, 0, 0, .ok false⟩ :=
  (run_etl_pipeline_success_iff (fun _ => .raises) .null (fun _ => .ok [])).2.1 rfl

/-- C10: the orchestrator aborts after the extract phase for every falsy
extraction result — not only the `None` sentinel, e.g. an empty dict
parsed from a valid JSON body — returning `False` with transform and
load never invoked, because the abort test is Python truthiness. -/
theorem run_etl_pipeline_aborts_on_falsy (env : Nat → HttpOutcome) (now : Value)
    (store : List NormalizedDoc → Except Unit (List Value)) (raw : Value)
    (hex : (extract_data env).result = .ok (some raw)) (hfalsy : raw.truthy = false) :
    run_etl_pipeline env now store = ⟨0, 0, 0, 0, .ok false⟩ := by
  simp [run_etl_pipeline, hex, hfalsy]

theorem run_etl_pipeline_aborts_on_falsy_witness :
    run_etl_pipeline (fun _ => .response 200 (.parsed (.dict []))) .null (fun _ => .ok []) =
      ⟨0, 0, 0, 0, .ok false⟩ :=
  run_etl_pipeline_aborts_on_falsy (fun _ => .response 200 (.parsed (.dict []))) .null
    (fun _ => .ok []) (.dict []) rfl rfl

end OTX
